import Mathlib

/-!
Verification of the namespace reconciler in
`control-plane/tenancy/namespace/namespace.go`.

The Go module reconciles a Consul namespace against a remote resource
service through a gRPC client exposing Read, Write and Delete.  We embed
the module shallowly: the client is a record of pure functions, Go errors
become an inductive type that records gRPC status codes and
`fmt.Errorf("...: %w", err)` wrapping, and each operation returns both its
Go result and the list of remote calls it issued, so that claims about
"exactly one write" or "no delete" can be stated as facts about the trace.
-/

namespace ConsulK8s

/-- gRPC status codes, as inspected by `status.Code`.  Only `NotFound` is
distinguished by the module; every other code is carried abstractly. -/
inductive Code where
  | ok
  | notFound
  | other (n : Nat)
deriving DecidableEq, Repr

/-- Go error values as produced and consumed by the module: a gRPC status
error (from the remote client), a wrapped error built by
`fmt.Errorf("<context>: %w", err)` (the stored string is the full text
before the cause, including the trailing ": "), a plain formatted error
built by `fmt.Errorf` without `%w`, and an encoding failure from
`anypb.New`. -/
inductive GoError where
  | grpcStatus (code : Code) (msg : String)
  | wrapped (context : String) (cause : GoError)
  | errorf (msg : String)
  | encodingErr (msg : String)
deriving DecidableEq, Repr

/-- `status.Code(err)`: the gRPC code of a status error; any other error
maps to a non-NotFound code (Go returns `codes.Unknown`). -/
def statusCode : GoError → Code
  | .grpcStatus c _ => c
  | _ => .other 2

/-- `err.Error()`: the rendered message of a Go error.  Wrapping
concatenates the context (which already ends in ": ") with the cause. -/
def GoError.message : GoError → String
  | .grpcStatus _ m => m
  | .wrapped c cause => c ++ cause.message
  | .errorf m => m
  | .encodingErr m => m

/-- `errors.Unwrap`: recovers the cause of a `%w`-wrapped error. -/
def GoError.unwrapErr : GoError → Option GoError
  | .wrapped _ cause => some cause
  | _ => none

/-- `pbresource.Tenancy`: the addressing scope; only the partition is set
by this module. -/
structure Tenancy where
  Partition : String
deriving DecidableEq, Repr

/-- `pbresource.Type`: a resource type constant. -/
structure ResourceType where
  Group : String
  GroupVersion : String
  Kind : String
deriving DecidableEq, Repr

/-- `pbtenancy.NamespaceType`: the fixed namespace resource type from
`pbtenancy/v2beta1`. -/
def NamespaceType : ResourceType :=
  { Group := "tenancy", GroupVersion := "v2beta1", Kind := "Namespace" }

/-- `pbresource.ID`: a resource identity. -/
structure ID where
  Name : String
  Typ : ResourceType
  Tenancy : Tenancy
deriving DecidableEq, Repr

/-- `pbtenancy.Namespace`: the creation payload message. -/
structure NamespaceData where
  Description : String
deriving DecidableEq, Repr

/-- `anypb.Any`: the transport's opaque-data envelope.  Shallowly, it
carries the type URL and the encoded message. -/
structure AnyMsg where
  TypeUrl : String
  Value : NamespaceData
deriving DecidableEq, Repr

/-- `pbresource.Resource`: the remote record.  A Go `map[string]string`
can be nil, so the metadata mapping is an `Option` of an association
list. -/
structure Resource where
  Id : ID
  Metadata : Option (List (String × String))
  Data : Option AnyMsg
  Version : String
deriving DecidableEq, Repr

/-- `pbresource.ReadRequest`. -/
structure ReadRequest where
  Id : ID
deriving DecidableEq, Repr

/-- `pbresource.ReadResponse`. -/
structure ReadResponse where
  Resource : Resource
deriving DecidableEq, Repr

/-- `pbresource.WriteRequest`. -/
structure WriteRequest where
  Resource : Resource
deriving DecidableEq, Repr

/-- `pbresource.WriteResponse`. -/
structure WriteResponse where
  Resource : Resource
deriving DecidableEq, Repr

/-- `pbresource.DeleteRequest`. -/
structure DeleteRequest where
  Id : ID
  Version : String
deriving DecidableEq, Repr

/-- `pbresource.DeleteResponse` (empty message). -/
structure DeleteResponse where
deriving DecidableEq, Repr

/-- The remote `pbresource.ResourceServiceClient` as used by the module:
three fallible operations. -/
structure Client where
  read : ReadRequest → Except GoError ReadResponse
  write : WriteRequest → Except GoError WriteResponse
  delete : DeleteRequest → Except GoError DeleteResponse

/-- One remote-client invocation, recorded in the trace of an operation. -/
inductive Call where
  | read (req : ReadRequest)
  | write (req : WriteRequest)
  | delete (req : DeleteRequest)
deriving DecidableEq, Repr

/-- Whether a trace entry is a Write call. -/
def Call.isWriteCall : Call → Bool
  | .write _ => true
  | _ => false

/-- Whether a trace entry is a Delete call. -/
def Call.isDeleteCall : Call → Bool
  | .delete _ => true
  | _ => false

/-- The execution environment: the injected remote client together with
the outcome of `anypb.New` marshalling (`none` means marshalling
succeeds, `some e` means it fails with `e`). -/
structure Env where
  client : Client
  marshalErr : Option GoError

/-- The `Any` type URL of a `pbtenancy.Namespace` message. -/
def anyTypeUrl : String :=
  "type.googleapis.com/hashicorp.consul.tenancy.v2beta1.Namespace"

/-- `anypb.New` on a `pbtenancy.Namespace` message: marshals the message
into an `Any` envelope carrying its type URL.  The Go API is fallible, so
the embedding keeps the `Except` shape, with the failure outcome supplied
by the environment. -/
def Env.anypbNew (env : Env) (d : NamespaceData) : Except GoError AnyMsg :=
  match env.marshalErr with
  | some e => Except.error e
  | none => Except.ok { TypeUrl := anyTypeUrl, Value := d }

/-- Modelled from the spec: `common.WildcardNamespace`, the wildcard
sentinel supplied by the shared `api/common` module (not part of this
excerpt); the spec names it the `"*"` wildcard. -/
def WildcardNamespace : String := "*"

/-- Modelled from the spec: `common.DefaultNamespaceName`, the default
namespace sentinel supplied by the shared `api/common` module (not part of
this excerpt); the spec names it the "default" sentinel. -/
def DefaultNamespaceName : String := "default"

/-- `DeletionTimestampKey`: the metadata key marking a resource as being
deleted. -/
def DeletionTimestampKey : String := "deletionTimestamp"

/-- `isMarkedForDeletion`: true if the resource's metadata map is non-nil
and contains the deletion-timestamp key. -/
def isMarkedForDeletion (res : Resource) : Bool :=
  match res.Metadata with
  | none => false
  | some m => (m.lookup DeletionTimestampKey).isSome

/-- The read request both operations build for (partition, namespace). -/
def readReqFor (ap ns : String) : ReadRequest :=
  { Id := { Name := ns, Typ := NamespaceType, Tenancy := { Partition := ap } } }

/-- `EnsureDeleted`: ensures the namespace `ns` in partition `ap` is
deleted or being deleted.  Returns the Go result together with the list
of remote calls issued, in order. -/
def EnsureDeleted (env : Env) (ap ns : String) :
    Except GoError Unit × List Call :=
  if ns = WildcardNamespace ∨ ns = DefaultNamespaceName then
    (Except.ok (), [])
  else
    let req := readReqFor ap ns
    match env.client.read req with
    | Except.error err =>
      if statusCode err = Code.notFound then
        (Except.ok (), [Call.read req])
      else
        (Except.error (GoError.wrapped "namespace read failed: " err),
         [Call.read req])
    | Except.ok rsp =>
      if isMarkedForDeletion rsp.Resource then
        (Except.ok (), [Call.read req])
      else
        let dreq : DeleteRequest := { Id := rsp.Resource.Id, Version := "" }
        match env.client.delete dreq with
        | Except.error err =>
          (Except.error (GoError.wrapped "namespace delete failed: " err),
           [Call.read req, Call.delete dreq])
        | Except.ok _ =>
          (Except.ok (), [Call.read req, Call.delete dreq])

/-- The fixed description written on creation. -/
def autoGeneratedDescription : String := "Auto-generated by consul-k8s"

/-- The resource written by `EnsureExists` on creation, given the encoded
payload: computed identity, the external-source metadata stamp, and the
encoded data (no version). -/
def creationResource (ap ns : String) (nsData : AnyMsg) : Resource :=
  { Id := { Name := ns, Typ := NamespaceType, Tenancy := { Partition := ap } },
    Metadata := some [("external-source", "kubernetes")],
    Data := some nsData,
    Version := "" }

/-- `EnsureExists`: ensures the namespace `ns` in partition `ap` exists
and is not marked for deletion.  Returns the created flag and Go result,
together with the list of remote calls issued, in order. -/
def EnsureExists (env : Env) (ap ns : String) :
    (Bool × Except GoError Unit) × List Call :=
  if ns = WildcardNamespace ∨ ns = DefaultNamespaceName then
    ((false, Except.ok ()), [])
  else
    let req := readReqFor ap ns
    match env.client.read req with
    | Except.ok rsp =>
      if isMarkedForDeletion rsp.Resource then
        ((false, Except.error (GoError.errorf
            ("consul namespace \"" ++ ns ++ "\" deletion in progress"))),
         [Call.read req])
      else
        ((false, Except.ok ()), [Call.read req])
    | Except.error err =>
      if statusCode err ≠ Code.notFound then
        ((false, Except.error
            (GoError.wrapped "consul namespace read failed: " err)),
         [Call.read req])
      else
        match env.anypbNew { Description := autoGeneratedDescription } with
        | Except.error encErr =>
          ((false, Except.error encErr), [Call.read req])
        | Except.ok nsData =>
          let wreq : WriteRequest := { Resource := creationResource ap ns nsData }
          match env.client.write wreq with
          | Except.error werr =>
            ((false, Except.error
                (GoError.wrapped "consul namespace creation failed: " werr)),
             [Call.read req, Call.write wreq])
          | Except.ok _ =>
            ((true, Except.ok ()), [Call.read req, Call.write wreq])

/-- The encoded creation payload when marshalling succeeds. -/
def encodedCreationPayload : AnyMsg :=
  { TypeUrl := anyTypeUrl, Value := { Description := autoGeneratedDescription } }

/-- The write request issued on the creation path. -/
def creationWriteReq (ap ns : String) : WriteRequest :=
  { Resource := creationResource ap ns encodedCreationPayload }

/-- A gRPC NotFound error, for concrete executions. -/
def notFoundErr : GoError := GoError.grpcStatus Code.notFound "resource not found"

/-- A gRPC Internal error (code 13), for concrete executions. -/
def internalErr : GoError := GoError.grpcStatus (Code.other 13) "internal"

/-- A concrete live (unmarked) record for (partition, namespace): exactly
the shape a previous creation by this module leaves behind, plus a
version token assigned by the remote store. -/
def liveResource (ap ns : String) : Resource :=
  { Id := (readReqFor ap ns).Id,
    Metadata := some [("external-source", "kubernetes")],
    Data := some encodedCreationPayload,
    Version := "7" }

/-- A concrete record marked for deletion: the deletion-timestamp key is
present with the empty string as its value. -/
def markedResource (ap ns : String) : Resource :=
  { Id := (readReqFor ap ns).Id,
    Metadata := some [("deletionTimestamp", "")],
    Data := some encodedCreationPayload,
    Version := "7" }

/-- A remote in which the namespace is absent and writes succeed. -/
def envAbsent : Env :=
  { client :=
      { read := fun _ => Except.error notFoundErr,
        write := fun req => Except.ok { Resource := req.Resource },
        delete := fun _ => Except.ok {} },
    marshalErr := none }

/-- A remote in which the namespace exists and is not marked for
deletion; deletes succeed. -/
def envLive : Env :=
  { client :=
      { read := fun req =>
          Except.ok { Resource := liveResource req.Id.Tenancy.Partition req.Id.Name },
        write := fun req => Except.ok { Resource := req.Resource },
        delete := fun _ => Except.ok {} },
    marshalErr := none }

/-- A remote in which the namespace is marked for deletion. -/
def envMarked : Env :=
  { client :=
      { read := fun req =>
          Except.ok { Resource := markedResource req.Id.Tenancy.Partition req.Id.Name },
        write := fun req => Except.ok { Resource := req.Resource },
        delete := fun _ => Except.ok {} },
    marshalErr := none }

/-- A remote whose reads fail with a non-NotFound error. -/
def envReadFail : Env :=
  { client :=
      { read := fun _ => Except.error internalErr,
        write := fun req => Except.ok { Resource := req.Resource },
        delete := fun _ => Except.ok {} },
    marshalErr := none }

/-- A remote in which the namespace is absent but payload marshalling
fails. -/
def encodeErr : GoError := GoError.encodingErr "proto marshal failed"

/-- The environment exhibiting a marshalling failure on an absent
namespace. -/
def envEncodeFail : Env :=
  { client :=
      { read := fun _ => Except.error notFoundErr,
        write := fun req => Except.ok { Resource := req.Resource },
        delete := fun _ => Except.ok {} },
    marshalErr := some encodeErr }

/-- Path lemma: `EnsureDeleted` on a reserved name. -/
theorem EnsureDeleted_eq_reserved (env : Env) (ap ns : String)
    (h : ns = WildcardNamespace ∨ ns = DefaultNamespaceName) :
    EnsureDeleted env ap ns = (Except.ok (), []) := by
  unfold EnsureDeleted
  rw [if_pos h]

/-- Path lemma: `EnsureDeleted` when the read fails with NotFound. -/
theorem EnsureDeleted_eq_notFound (env : Env) (ap ns : String)
    (hns : ¬(ns = WildcardNamespace ∨ ns = DefaultNamespaceName))
    (e : GoError) (hr : env.client.read (readReqFor ap ns) = Except.error e)
    (hc : statusCode e = Code.notFound) :
    EnsureDeleted env ap ns = (Except.ok (), [Call.read (readReqFor ap ns)]) := by
  simp [EnsureDeleted, hns, hr, hc]

/-- Path lemma: `EnsureDeleted` when the read fails otherwise. -/
theorem EnsureDeleted_eq_readFail (env : Env) (ap ns : String)
    (hns : ¬(ns = WildcardNamespace ∨ ns = DefaultNamespaceName))
    (e : GoError) (hr : env.client.read (readReqFor ap ns) = Except.error e)
    (hc : statusCode e ≠ Code.notFound) :
    EnsureDeleted env ap ns =
      (Except.error (GoError.wrapped "namespace read failed: " e),
       [Call.read (readReqFor ap ns)]) := by
  simp [EnsureDeleted, hns, hr, hc]

/-- Path lemma: `EnsureDeleted` when the record is marked for deletion. -/
theorem EnsureDeleted_eq_marked (env : Env) (ap ns : String)
    (hns : ¬(ns = WildcardNamespace ∨ ns = DefaultNamespaceName))
    (rsp : ReadResponse)
    (hr : env.client.read (readReqFor ap ns) = Except.ok rsp)
    (hm : isMarkedForDeletion rsp.Resource = true) :
    EnsureDeleted env ap ns = (Except.ok (), [Call.read (readReqFor ap ns)]) := by
  simp [EnsureDeleted, hns, hr, hm]

/-- Path lemma: `EnsureDeleted` on a live record when the delete
succeeds. -/
theorem EnsureDeleted_eq_deleteOk (env : Env) (ap ns : String)
    (hns : ¬(ns = WildcardNamespace ∨ ns = DefaultNamespaceName))
    (rsp : ReadResponse)
    (hr : env.client.read (readReqFor ap ns) = Except.ok rsp)
    (hm : isMarkedForDeletion rsp.Resource = false)
    (drsp : DeleteResponse)
    (hd : env.client.delete { Id := rsp.Resource.Id, Version := "" } =
      Except.ok drsp) :
    EnsureDeleted env ap ns =
      (Except.ok (),
       [Call.read (readReqFor ap ns),
        Call.delete { Id := rsp.Resource.Id, Version := "" }]) := by
  simp [EnsureDeleted, hns, hr, hm, hd]

/-- Path lemma: `EnsureDeleted` on a live record when the delete fails. -/
theorem EnsureDeleted_eq_deleteFail (env : Env) (ap ns : String)
    (hns : ¬(ns = WildcardNamespace ∨ ns = DefaultNamespaceName))
    (rsp : ReadResponse)
    (hr : env.client.read (readReqFor ap ns) = Except.ok rsp)
    (hm : isMarkedForDeletion rsp.Resource = false)
    (e : GoError)
    (hd : env.client.delete { Id := rsp.Resource.Id, Version := "" } =
      Except.error e) :
    EnsureDeleted env ap ns =
      (Except.error (GoError.wrapped "namespace delete failed: " e),
       [Call.read (readReqFor ap ns),
        Call.delete { Id := rsp.Resource.Id, Version := "" }]) := by
  simp [EnsureDeleted, hns, hr, hm, hd]

/-- Path lemma: `EnsureExists` on a reserved name. -/
theorem EnsureExists_eq_reserved (env : Env) (ap ns : String)
    (h : ns = WildcardNamespace ∨ ns = DefaultNamespaceName) :
    EnsureExists env ap ns = ((false, Except.ok ()), []) := by
  unfold EnsureExists
  rw [if_pos h]

/-- Path lemma: `EnsureExists` when the record is marked for deletion. -/
theorem EnsureExists_eq_marked (env : Env) (ap ns : String)
    (hns : ¬(ns = WildcardNamespace ∨ ns = DefaultNamespaceName))
    (rsp : ReadResponse)
    (hr : env.client.read (readReqFor ap ns) = Except.ok rsp)
    (hm : isMarkedForDeletion rsp.Resource = true) :
    EnsureExists env ap ns =
      ((false, Except.error (GoError.errorf
          ("consul namespace \"" ++ ns ++ "\" deletion in progress"))),
       [Call.read (readReqFor ap ns)]) := by
  simp [EnsureExists, hns, hr, hm]

/-- Path lemma: `EnsureExists` on a live record. -/
theorem EnsureExists_eq_live (env : Env) (ap ns : String)
    (hns : ¬(ns = WildcardNamespace ∨ ns = DefaultNamespaceName))
    (rsp : ReadResponse)
    (hr : env.client.read (readReqFor ap ns) = Except.ok rsp)
    (hm : isMarkedForDeletion rsp.Resource = false) :
    EnsureExists env ap ns =
      ((false, Except.ok ()), [Call.read (readReqFor ap ns)]) := by
  simp [EnsureExists, hns, hr, hm]

/-- Path lemma: `EnsureExists` when the read fails with a non-NotFound
error. -/
theorem EnsureExists_eq_readFail (env : Env) (ap ns : String)
    (hns : ¬(ns = WildcardNamespace ∨ ns = DefaultNamespaceName))
    (e : GoError) (hr : env.client.read (readReqFor ap ns) = Except.error e)
    (hc : statusCode e ≠ Code.notFound) :
    EnsureExists env ap ns =
      ((false, Except.error
          (GoError.wrapped "consul namespace read failed: " e)),
       [Call.read (readReqFor ap ns)]) := by
  simp [EnsureExists, hns, hr, hc]

/-- Path lemma: `EnsureExists` when the read fails with NotFound and
marshalling the payload fails. -/
theorem EnsureExists_eq_encodeFail (env : Env) (ap ns : String)
    (hns : ¬(ns = WildcardNamespace ∨ ns = DefaultNamespaceName))
    (e : GoError) (hr : env.client.read (readReqFor ap ns) = Except.error e)
    (hc : statusCode e = Code.notFound)
    (e2 : GoError) (henc : env.marshalErr = some e2) :
    EnsureExists env ap ns =
      ((false, Except.error e2), [Call.read (readReqFor ap ns)]) := by
  simp [EnsureExists, Env.anypbNew, hns, hr, hc, henc]

/-- Path lemma: `EnsureExists` on the creation path when the write
succeeds. -/
theorem EnsureExists_eq_writeOk (env : Env) (ap ns : String)
    (hns : ¬(ns = WildcardNamespace ∨ ns = DefaultNamespaceName))
    (e : GoError) (hr : env.client.read (readReqFor ap ns) = Except.error e)
    (hc : statusCode e = Code.notFound)
    (henc : env.marshalErr = none)
    (wrsp : WriteResponse)
    (hw : env.client.write (creationWriteReq ap ns) = Except.ok wrsp) :
    EnsureExists env ap ns =
      ((true, Except.ok ()),
       [Call.read (readReqFor ap ns), Call.write (creationWriteReq ap ns)]) := by
  simp only [creationWriteReq, encodedCreationPayload] at hw
  simp [EnsureExists, Env.anypbNew, hns, hr, hc, henc, hw,
    creationWriteReq, encodedCreationPayload]

/-- Path lemma: `EnsureExists` on the creation path when the write
fails. -/
theorem EnsureExists_eq_writeFail (env : Env) (ap ns : String)
    (hns : ¬(ns = WildcardNamespace ∨ ns = DefaultNamespaceName))
    (e : GoError) (hr : env.client.read (readReqFor ap ns) = Except.error e)
    (hc : statusCode e = Code.notFound)
    (henc : env.marshalErr = none)
    (e2 : GoError)
    (hw : env.client.write (creationWriteReq ap ns) = Except.error e2) :
    EnsureExists env ap ns =
      ((false, Except.error
          (GoError.wrapped "consul namespace creation failed: " e2)),
       [Call.read (readReqFor ap ns), Call.write (creationWriteReq ap ns)]) := by
  simp only [creationWriteReq, encodedCreationPayload] at hw
  simp [EnsureExists, Env.anypbNew, hns, hr, hc, henc, hw,
    creationWriteReq, encodedCreationPayload]

/-- C3: `isMarkedForDeletion` returns true iff the record's metadata
mapping is present and contains the `"deletionTimestamp"` key under some
value (the empty string included); a record whose metadata mapping is
absent, or lacks the key, yields false. -/
theorem isMarkedForDeletion_iff_key (res : Resource) :
    isMarkedForDeletion res = true ↔
      ∃ m v, res.Metadata = some m ∧ m.lookup DeletionTimestampKey = some v := by
  unfold isMarkedForDeletion
  cases hm : res.Metadata with
  | none => simp
  | some m => simp [Option.isSome_iff_exists]

/-- C7: for a reserved namespace name (the wildcard or the default
sentinel), `EnsureDeleted` returns success and `EnsureExists` returns
(false, success), and both traces are empty: no remote Read, Write or
Delete is invoked. -/
theorem reserved_names_noop (env : Env) (ap ns : String)
    (h : ns = WildcardNamespace ∨ ns = DefaultNamespaceName) :
    EnsureDeleted env ap ns = (Except.ok (), []) ∧
      EnsureExists env ap ns = ((false, Except.ok ()), []) :=
  ⟨EnsureDeleted_eq_reserved env ap ns h, EnsureExists_eq_reserved env ap ns h⟩

/-- Witness for C7 at the wildcard name against a concrete remote. -/
theorem reserved_names_noop_witness :
    ("*" = WildcardNamespace ∨ "*" = DefaultNamespaceName) ∧
      (EnsureDeleted envLive "part" "*" = (Except.ok (), []) ∧
        EnsureExists envLive "part" "*" = ((false, Except.ok ()), [])) :=
  ⟨Or.inl rfl, reserved_names_noop envLive "part" "*" (Or.inl rfl)⟩

/-- C5: when the read fails with NotFound, or succeeds on a record marked
for deletion, `EnsureDeleted` returns success and its trace is the single
Read — no Delete is issued — so a repeated call observing either state
never errors. -/
theorem ensureDeleted_idempotent_states (env : Env) (ap ns : String)
    (hns : ¬(ns = WildcardNamespace ∨ ns = DefaultNamespaceName)) :
    (∀ e : GoError, env.client.read (readReqFor ap ns) = Except.error e →
        statusCode e = Code.notFound →
        EnsureDeleted env ap ns = (Except.ok (), [Call.read (readReqFor ap ns)]) ∧
          (EnsureDeleted env ap ns).2.filter Call.isDeleteCall = []) ∧
      (∀ rsp : ReadResponse, env.client.read (readReqFor ap ns) = Except.ok rsp →
        isMarkedForDeletion rsp.Resource = true →
        EnsureDeleted env ap ns = (Except.ok (), [Call.read (readReqFor ap ns)]) ∧
          (EnsureDeleted env ap ns).2.filter Call.isDeleteCall = []) := by
  constructor
  · intro e hr hc
    have h1 := EnsureDeleted_eq_notFound env ap ns hns e hr hc
    exact ⟨h1, by rw [h1]; rfl⟩
  · intro rsp hr hm
    have h1 := EnsureDeleted_eq_marked env ap ns hns rsp hr hm
    exact ⟨h1, by rw [h1]; rfl⟩

/-- Witness for C5: a second `EnsureDeleted` observing NotFound
succeeds. -/
theorem ensureDeleted_idempotent_states_witness :
    EnsureDeleted envAbsent "part" "ns3" =
      (Except.ok (), [Call.read (readReqFor "part" "ns3")]) :=
  ((ensureDeleted_idempotent_states envAbsent "part" "ns3" (by decide)).1
    notFoundErr rfl rfl).1

/-- C6: when the read succeeds on a record not marked for deletion,
`EnsureExists` returns (false, success) and its trace is the single Read
— no Write is issued; the record creation leaves behind is never marked,
so a second call observing it lands on this path. -/
theorem ensureExists_already_exists (env : Env) (ap ns : String)
    (hns : ¬(ns = WildcardNamespace ∨ ns = DefaultNamespaceName))
    (rsp : ReadResponse)
    (hr : env.client.read (readReqFor ap ns) = Except.ok rsp)
    (hm : isMarkedForDeletion rsp.Resource = false) :
    EnsureExists env ap ns =
      ((false, Except.ok ()), [Call.read (readReqFor ap ns)]) ∧
      (EnsureExists env ap ns).2.filter Call.isWriteCall = [] ∧
      ∀ a : AnyMsg, isMarkedForDeletion (creationResource ap ns a) = false := by
  have h1 := EnsureExists_eq_live env ap ns hns rsp hr hm
  exact ⟨h1, by rw [h1]; rfl, fun a => rfl⟩

/-- Witness for C6: a second `EnsureExists` observing the record created
by a first call returns (false, success). -/
theorem ensureExists_already_exists_witness :
    EnsureExists envLive "part" "ns2" =
      ((false, Except.ok ()), [Call.read (readReqFor "part" "ns2")]) :=
  (ensureExists_already_exists envLive "part" "ns2" (by decide)
    { Resource := liveResource "part" "ns2" } rfl rfl).1

/-- C2: when the read succeeds on a record not marked for deletion,
`EnsureDeleted` issues exactly one Delete, keyed by the identity the read
returned and carrying the empty version token (no optimistic-concurrency
check); it returns success when the Delete succeeds, and a wrapped
delete-error when the Delete fails. -/
theorem ensureDeleted_unconditional_delete (env : Env) (ap ns : String)
    (hns : ¬(ns = WildcardNamespace ∨ ns = DefaultNamespaceName))
    (rsp : ReadResponse)
    (hr : env.client.read (readReqFor ap ns) = Except.ok rsp)
    (hm : isMarkedForDeletion rsp.Resource = false) :
    ((EnsureDeleted env ap ns).2.filter Call.isDeleteCall =
        [Call.delete { Id := rsp.Resource.Id, Version := "" }]) ∧
      (∀ drsp : DeleteResponse,
        env.client.delete { Id := rsp.Resource.Id, Version := "" } =
          Except.ok drsp →
        EnsureDeleted env ap ns =
          (Except.ok (),
           [Call.read (readReqFor ap ns),
            Call.delete { Id := rsp.Resource.Id, Version := "" }])) ∧
      (∀ e : GoError,
        env.client.delete { Id := rsp.Resource.Id, Version := "" } =
          Except.error e →
        EnsureDeleted env ap ns =
          (Except.error (GoError.wrapped "namespace delete failed: " e),
           [Call.read (readReqFor ap ns),
            Call.delete { Id := rsp.Resource.Id, Version := "" }])) := by
  refine ⟨?_, ?_, ?_⟩
  · cases hd : env.client.delete { Id := rsp.Resource.Id, Version := "" } with
    | ok drsp =>
      rw [EnsureDeleted_eq_deleteOk env ap ns hns rsp hr hm drsp hd]
      rfl
    | error e =>
      rw [EnsureDeleted_eq_deleteFail env ap ns hns rsp hr hm e hd]
      rfl
  · intro drsp hd
    exact EnsureDeleted_eq_deleteOk env ap ns hns rsp hr hm drsp hd
  · intro e hd
    exact EnsureDeleted_eq_deleteFail env ap ns hns rsp hr hm e hd

/-- Witness for C2 against a concrete live remote whose delete
succeeds. -/
theorem ensureDeleted_unconditional_delete_witness :
    EnsureDeleted envLive "part" "ns4" =
      (Except.ok (),
       [Call.read (readReqFor "part" "ns4"),
        Call.delete { Id := (liveResource "part" "ns4").Id, Version := "" }]) :=
  ((ensureDeleted_unconditional_delete envLive "part" "ns4" (by decide)
    { Resource := liveResource "part" "ns4" } rfl rfl).2.1 {} rfl)

/-- C4: when the read succeeds and the record carries the deletion
marker, `EnsureExists` returns an error whose message embeds the
namespace name, and its trace is the single Read — no Write is issued. -/
theorem ensureExists_refuses_marked (env : Env) (ap ns : String)
    (hns : ¬(ns = WildcardNamespace ∨ ns = DefaultNamespaceName))
    (rsp : ReadResponse)
    (hr : env.client.read (readReqFor ap ns) = Except.ok rsp)
    (hm : isMarkedForDeletion rsp.Resource = true) :
    EnsureExists env ap ns =
      ((false, Except.error (GoError.errorf
          ("consul namespace \"" ++ ns ++ "\" deletion in progress"))),
       [Call.read (readReqFor ap ns)]) ∧
      (∃ s t, (GoError.errorf
          ("consul namespace \"" ++ ns ++ "\" deletion in progress")).message =
          s ++ ns ++ t) ∧
      (EnsureExists env ap ns).2.filter Call.isWriteCall = [] := by
  have h1 := EnsureExists_eq_marked env ap ns hns rsp hr hm
  exact ⟨h1, ⟨"consul namespace \"", "\" deletion in progress", rfl⟩,
    by rw [h1]; rfl⟩

/-- Witness for C4 against a concrete remote holding a record whose
deletion-timestamp value is the empty string. -/
theorem ensureExists_refuses_marked_witness :
    EnsureExists envMarked "part" "ns5" =
      ((false, Except.error (GoError.errorf
          "consul namespace \"ns5\" deletion in progress")),
       [Call.read (readReqFor "part" "ns5")]) :=
  (ensureExists_refuses_marked envMarked "part" "ns5" (by decide)
    { Resource := markedResource "part" "ns5" } rfl rfl).1

/-- C1: when the read fails with NotFound and the payload marshals,
`EnsureExists` issues exactly one Write; the written resource carries the
metadata stamp ("external-source" to "kubernetes"), the identity (name,
namespace resource type, partition tenancy), and as data the encoded
payload whose description reads "Auto-generated by consul-k8s"; when the
Write succeeds the call returns (true, success). -/
theorem ensureExists_creates_on_absent (env : Env) (ap ns : String)
    (hns : ¬(ns = WildcardNamespace ∨ ns = DefaultNamespaceName))
    (e : GoError)
    (hr : env.client.read (readReqFor ap ns) = Except.error e)
    (hc : statusCode e = Code.notFound)
    (henc : env.marshalErr = none)
    (wrsp : WriteResponse)
    (hw : env.client.write (creationWriteReq ap ns) = Except.ok wrsp) :
    EnsureExists env ap ns =
      ((true, Except.ok ()),
       [Call.read (readReqFor ap ns), Call.write (creationWriteReq ap ns)]) ∧
      (EnsureExists env ap ns).2.filter Call.isWriteCall =
        [Call.write (creationWriteReq ap ns)] ∧
      (creationWriteReq ap ns).Resource.Metadata =
        some [("external-source", "kubernetes")] ∧
      (creationWriteReq ap ns).Resource.Id =
        { Name := ns, Typ := NamespaceType, Tenancy := { Partition := ap } } ∧
      (creationWriteReq ap ns).Resource.Data = some encodedCreationPayload ∧
      encodedCreationPayload.Value.Description = "Auto-generated by consul-k8s" := by
  have h1 := EnsureExists_eq_writeOk env ap ns hns e hr hc henc wrsp hw
  exact ⟨h1, by rw [h1]; rfl, rfl, rfl, rfl, rfl⟩

/-- Witness for C1 against a concrete remote on which the namespace is
absent and the write succeeds. -/
theorem ensureExists_creates_on_absent_witness :
    EnsureExists envAbsent "part" "ns6" =
      ((true, Except.ok ()),
       [Call.read (readReqFor "part" "ns6"),
        Call.write (creationWriteReq "part" "ns6")]) :=
  (ensureExists_creates_on_absent envAbsent "part" "ns6" (by decide)
    notFoundErr rfl rfl rfl
    { Resource := creationResource "part" "ns6" encodedCreationPayload } rfl).1

/-- C8: every non-NotFound remote failure is returned wrapped with
operation-specific context and with the original cause recoverable by
unwrapping: read failures in `EnsureDeleted` ("namespace read failed"),
delete failures ("namespace delete failed"), read failures in
`EnsureExists` ("consul namespace read failed"), and write failures
("consul namespace creation failed"). -/
theorem errors_wrap_cause (env : Env) (ap ns : String)
    (hns : ¬(ns = WildcardNamespace ∨ ns = DefaultNamespaceName)) :
    (∀ e : GoError, env.client.read (readReqFor ap ns) = Except.error e →
        statusCode e ≠ Code.notFound →
        (EnsureDeleted env ap ns).1 =
          Except.error (GoError.wrapped "namespace read failed: " e) ∧
        (GoError.wrapped "namespace read failed: " e).unwrapErr = some e ∧
        (GoError.wrapped "namespace read failed: " e).message =
          "namespace read failed: " ++ e.message) ∧
      (∀ rsp e, env.client.read (readReqFor ap ns) = Except.ok rsp →
        isMarkedForDeletion rsp.Resource = false →
        env.client.delete { Id := rsp.Resource.Id, Version := "" } =
          Except.error e →
        (EnsureDeleted env ap ns).1 =
          Except.error (GoError.wrapped "namespace delete failed: " e) ∧
        (GoError.wrapped "namespace delete failed: " e).unwrapErr = some e ∧
        (GoError.wrapped "namespace delete failed: " e).message =
          "namespace delete failed: " ++ e.message) ∧
      (∀ e : GoError, env.client.read (readReqFor ap ns) = Except.error e →
        statusCode e ≠ Code.notFound →
        (EnsureExists env ap ns).1 =
          (false, Except.error
            (GoError.wrapped "consul namespace read failed: " e)) ∧
        (GoError.wrapped "consul namespace read failed: " e).unwrapErr =
          some e ∧
        (GoError.wrapped "consul namespace read failed: " e).message =
          "consul namespace read failed: " ++ e.message) ∧
      (∀ e e2 : GoError, env.client.read (readReqFor ap ns) = Except.error e →
        statusCode e = Code.notFound →
        env.marshalErr = none →
        env.client.write (creationWriteReq ap ns) = Except.error e2 →
        (EnsureExists env ap ns).1 =
          (false, Except.error
            (GoError.wrapped "consul namespace creation failed: " e2)) ∧
        (GoError.wrapped "consul namespace creation failed: " e2).unwrapErr =
          some e2 ∧
        (GoError.wrapped "consul namespace creation failed: " e2).message =
          "consul namespace creation failed: " ++ e2.message) := by
  refine ⟨?_, ?_, ?_, ?_⟩
  · intro e hr hc
    exact ⟨by rw [EnsureDeleted_eq_readFail env ap ns hns e hr hc], rfl, rfl⟩
  · intro rsp e hr hm hd
    exact ⟨by rw [EnsureDeleted_eq_deleteFail env ap ns hns rsp hr hm e hd],
      rfl, rfl⟩
  · intro e hr hc
    exact ⟨by rw [EnsureExists_eq_readFail env ap ns hns e hr hc], rfl, rfl⟩
  · intro e e2 hr hc henc hw
    exact ⟨by rw [EnsureExists_eq_writeFail env ap ns hns e hr hc henc e2 hw],
      rfl, rfl⟩

/-- Witness for C8: a concrete Internal read error surfaces wrapped, with
the cause recoverable by unwrapping. -/
theorem errors_wrap_cause_witness :
    (EnsureDeleted envReadFail "part" "ns7").1 =
      Except.error (GoError.wrapped "namespace read failed: " internalErr) ∧
      (GoError.wrapped "namespace read failed: " internalErr).unwrapErr =
        some internalErr ∧
      (GoError.wrapped "namespace read failed: " internalErr).message =
        "namespace read failed: " ++ internalErr.message :=
  (errors_wrap_cause envReadFail "part" "ns7" (by decide)).1
    internalErr rfl (by decide)

/-- C9: when the read fails with NotFound but marshalling the creation
payload fails, `EnsureExists` returns (false, the marshalling error)
unchanged — not wrapped — and its trace is the single Read: no Write is
issued, so the remote state is untouched. -/
theorem ensureExists_encode_error_propagates (env : Env) (ap ns : String)
    (hns : ¬(ns = WildcardNamespace ∨ ns = DefaultNamespaceName))
    (e : GoError)
    (hr : env.client.read (readReqFor ap ns) = Except.error e)
    (hc : statusCode e = Code.notFound)
    (e2 : GoError) (henc : env.marshalErr = some e2) :
    EnsureExists env ap ns =
      ((false, Except.error e2), [Call.read (readReqFor ap ns)]) ∧
      (EnsureExists env ap ns).2.filter Call.isWriteCall = [] := by
  have h1 := EnsureExists_eq_encodeFail env ap ns hns e hr hc e2 henc
  exact ⟨h1, by rw [h1]; rfl⟩

/-- Witness for C9 against a concrete remote on which the namespace is
absent and marshalling fails. -/
theorem ensureExists_encode_error_propagates_witness :
    EnsureExists envEncodeFail "part" "ns8" =
      ((false, Except.error encodeErr), [Call.read (readReqFor "part" "ns8")]) :=
  (ensureExists_encode_error_propagates envEncodeFail "part" "ns8" (by decide)
    notFoundErr rfl rfl encodeErr rfl).1

/-- C10: `EnsureExists` reports created = true exactly when it issued a
Write that succeeded; on every error return the flag is false;
`EnsureExists` never issues a Delete and `EnsureDeleted` never issues a
Write. -/
theorem reconciler_invariants (env : Env) (ap ns : String) :
    ((EnsureExists env ap ns).1.1 = true →
        (EnsureExists env ap ns).1.2 = Except.ok () ∧
        ∃ wreq wrsp, Call.write wreq ∈ (EnsureExists env ap ns).2 ∧
          env.client.write wreq = Except.ok wrsp) ∧
      (∀ e : GoError, (EnsureExists env ap ns).1.2 = Except.error e →
        (EnsureExists env ap ns).1.1 = false) ∧
      (EnsureExists env ap ns).2.filter Call.isDeleteCall = [] ∧
      (EnsureDeleted env ap ns).2.filter Call.isWriteCall = [] := by
  by_cases hns : ns = WildcardNamespace ∨ ns = DefaultNamespaceName
  · rw [EnsureExists_eq_reserved env ap ns hns,
        EnsureDeleted_eq_reserved env ap ns hns]
    exact ⟨fun h => absurd h (by simp), fun e he => rfl, rfl, rfl⟩
  · cases hr : env.client.read (readReqFor ap ns) with
    | ok rsp =>
      cases hm : isMarkedForDeletion rsp.Resource with
      | true =>
        rw [EnsureExists_eq_marked env ap ns hns rsp hr hm,
            EnsureDeleted_eq_marked env ap ns hns rsp hr hm]
        exact ⟨fun h => absurd h (by simp), fun e he => rfl, rfl, rfl⟩
      | false =>
        cases hd : env.client.delete { Id := rsp.Resource.Id, Version := "" } with
        | ok drsp =>
          rw [EnsureExists_eq_live env ap ns hns rsp hr hm,
              EnsureDeleted_eq_deleteOk env ap ns hns rsp hr hm drsp hd]
          exact ⟨fun h => absurd h (by simp), fun e he => rfl, rfl, rfl⟩
        | error de =>
          rw [EnsureExists_eq_live env ap ns hns rsp hr hm,
              EnsureDeleted_eq_deleteFail env ap ns hns rsp hr hm de hd]
          exact ⟨fun h => absurd h (by simp), fun e he => rfl, rfl, rfl⟩
    | error e =>
      by_cases hc : statusCode e = Code.notFound
      · cases henc : env.marshalErr with
        | some e2 =>
          rw [EnsureExists_eq_encodeFail env ap ns hns e hr hc e2 henc,
              EnsureDeleted_eq_notFound env ap ns hns e hr hc]
          exact ⟨fun h => absurd h (by simp), fun e3 he => rfl, rfl, rfl⟩
        | none =>
          cases hw : env.client.write (creationWriteReq ap ns) with
          | ok wrsp =>
            rw [EnsureExists_eq_writeOk env ap ns hns e hr hc henc wrsp hw,
                EnsureDeleted_eq_notFound env ap ns hns e hr hc]
            refine ⟨fun _ => ⟨rfl, creationWriteReq ap ns, wrsp, by simp, hw⟩,
              fun e3 he => by simp at he, rfl, rfl⟩
          | error we =>
            rw [EnsureExists_eq_writeFail env ap ns hns e hr hc henc we hw,
                EnsureDeleted_eq_notFound env ap ns hns e hr hc]
            exact ⟨fun h => absurd h (by simp), fun e3 he => rfl, rfl, rfl⟩
      · rw [EnsureExists_eq_readFail env ap ns hns e hr hc,
            EnsureDeleted_eq_readFail env ap ns hns e hr hc]
        exact ⟨fun h => absurd h (by simp), fun e3 he => rfl, rfl, rfl⟩

/-- Witness for C10: on the concrete creation path the flag is true, the
trace holds a successful Write, and the result is success. -/
theorem reconciler_invariants_witness :
    (EnsureExists envAbsent "part" "ns9").1.2 = Except.ok () ∧
      ∃ wreq wrsp, Call.write wreq ∈ (EnsureExists envAbsent "part" "ns9").2 ∧
        envAbsent.client.write wreq = Except.ok wrsp :=
  (reconciler_invariants envAbsent "part" "ns9").1 rfl

end ConsulK8s
